import Mathlib

/-!
Verification of the session-registry and agent-relay logic of the
`superset-mcp-plugins` AI assistant view
(`src/superset/ai_superset_assistant.py`).

The Python module is shallowly embedded as pure Lean functions:

* the in-process session registry (`AIAssistantAgent.sessions`, a Python
  dict) becomes an association list `List (String × SessionMeta)` whose
  insert replaces an existing binding and whose delete removes it, exactly
  the dict semantics used by the source;
* the external collaborator `get_stream_agent_responce` is external code unknown to the
  source tree, so it enters the model as a parameter: a function from the
  arguments the source passes it (session id, message, username) to an
  observable outcome — the list of text fragments it yields, together with
  whether it then completes normally or raises;
* the stdlib generator `uuid.uuid4` (not part of this repository) is
  modelled as a deterministic supply of well-formed version-4 UUID strings
  indexed by a per-process nonce, held in `AgentState.counter`; its
  injectivity on the nonce models the spec's "identifier generation
  randomness" uniqueness assumption;
* exceptions raised by non-collaborator machinery inside the handlers
  (event-loop construction, serialisation, …) are injected through
  explicit fault parameters, since the source catches them and degrades;
  collaborator exceptions are part of the collaborator parameter itself;
* wall-clock time (`datetime.now()`) is a `Nat` parameter `now`.

Every definition is translated from the source file; line numbers in the
doc comments refer to `src/superset/ai_superset_assistant.py`.
-/

/-! ### Hexadecimal digits and version-4 UUID strings -/

/-- The lower-case hexadecimal digit with value `n` (for `n < 16`). -/
def hexChar (n : Nat) : Char :=
  if n < 10 then Char.ofNat (48 + n) else Char.ofNat (87 + n)

/-- Recogniser for lower-case hexadecimal digits. -/
def isHexChar (c : Char) : Bool :=
  (('0' ≤ c) && (c ≤ '9')) || (('a' ≤ c) && (c ≤ 'f'))

/-- Numeric value of a lower-case hexadecimal digit. -/
def hexVal (c : Char) : Nat :=
  if c ≤ '9' then c.toNat - 48 else c.toNat - 87

/-- Fixed-width big-endian hexadecimal rendering of `n` on `w` digits. -/
def natToHexList : Nat → Nat → List Char
  | 0, _ => []
  | w + 1, n => natToHexList w (n / 16) ++ [hexChar (n % 16)]

/-- Value of a big-endian hexadecimal digit list. -/
def hexListVal (l : List Char) : Nat :=
  l.foldl (fun a c => 16 * a + hexVal c) 0

/-- The constant first 24 characters of every identifier produced by the
modelled uuid supply: zero time fields, version nibble `4`, variant `8`. -/
def uuidStem : List Char := "00000000-0000-4000-8000-".data

/-- Modelled from the spec: the source calls `str(uuid.uuid4())`
(line 48), a Python-stdlib random generator that is outside this
repository.  It is modelled as a deterministic injective supply of
version-4-shaped UUID strings indexed by the per-process nonce stored in
`AgentState.counter`; injectivity of the supply stands in for the spec's
"identifier generation randomness" uniqueness assumption (§3). -/
def uuid4 (nonce : Nat) : String :=
  String.mk (uuidStem ++ natToHexList 12 nonce)

/-- Syntactic well-formedness of a version-4 UUID string in its canonical
8-4-4-4-12 lower-case hexadecimal form: 36 characters, hyphens at offsets
8, 13, 18 and 23, the version nibble `4` at offset 14, a valid variant
nibble at offset 19, hexadecimal digits everywhere else. -/
def validUuidChars (cs : List Char) : Bool :=
  cs.length == 36 &&
  (cs.take 8).all isHexChar &&
  ((cs.drop 9).take 4).all isHexChar &&
  ((cs.drop 15).take 3).all isHexChar &&
  ((cs.drop 20).take 3).all isHexChar &&
  (cs.drop 24).all isHexChar &&
  (cs.getD 8 '?' == '-') && (cs.getD 13 '?' == '-') &&
  (cs.getD 18 '?' == '-') && (cs.getD 23 '?' == '-') &&
  (cs.getD 14 '?' == '4') &&
  (cs.getD 19 '?' == '8' || cs.getD 19 '?' == '9' ||
   cs.getD 19 '?' == 'a' || cs.getD 19 '?' == 'b')

/-- A string is a syntactically valid version-4 UUID token. -/
def validUuid (s : String) : Bool := validUuidChars s.data

/-! ### Data model: users, session metadata, process state -/

/-- The Flask-Login `current_user` as consulted by the source: it may be
absent, and when present it carries an authentication flag and possibly a
`username` attribute (absent attribute modelled as `none`, matching the
`getattr(..., 'username', 'anonymous')` default on lines 51, 653, 684). -/
structure CurrentUser where
  username : Option String
  isAuthenticated : Bool
deriving DecidableEq, Repr

/-- Metadata stored per session by `create_session` (lines 49-52):
creation time and owning username. -/
structure SessionMeta where
  createdAt : Nat
  username : String
deriving DecidableEq, Repr

/-- Process state of one `AIAssistantAgent`: the `self.sessions` dict
(line 44) as an association list, plus the nonce of the modelled
`uuid.uuid4` supply (state of the stdlib generator, not a field of the
Python object). -/
structure AgentState where
  sessions : List (String × SessionMeta)
  counter : Nat
deriving DecidableEq, Repr

/-- Dict lookup: the first binding of `k`, as in `self.sessions[k]` /
`k in self.sessions`. -/
def dictGet (k : String) : List (String × SessionMeta) → Option SessionMeta
  | [] => none
  | (k', v) :: rest => if k' = k then some v else dictGet k rest

/-- The username resolution expression of lines 51, 653 and 684:
`getattr(current_user, 'username', 'anonymous') if current_user and
current_user.is_authenticated else 'anonymous'`. -/
def resolveUsername : Option CurrentUser → String
  | none => "anonymous"
  | some u => if u.isAuthenticated then u.username.getD "anonymous" else "anonymous"

/-- Model of `AIAssistantAgent.create_session` (lines 46-53): draw a fresh id from
the uuid supply and record creation time and resolved username under it.
Dict assignment replaces any existing binding, hence the filter. -/
def create_session (user : Option CurrentUser) (now : Nat) (st : AgentState) :
    String × AgentState :=
  let sid := uuid4 st.counter
  (sid,
   { sessions := (sid, { createdAt := now, username := resolveUsername user })
       :: st.sessions.filter (fun p => p.1 ≠ sid),
     counter := st.counter + 1 })

/-- The test `not session_id or session_id not in self.sessions`
(lines 57, 83, 679): Python treats both `None` and the empty string as
falsy. -/
def needsNewSession (sessions : List (String × SessionMeta)) (sid : Option String) : Bool :=
  match sid with
  | none => true
  | some s => s == "" || (dictGet s sessions).isNone

/-- The shared create-if-unknown step (`session_id = self.create_session()`
on lines 57-58, 83-84, 679-682): returns the session id in effect and the
possibly-updated state. -/
def ensureSession (sid : Option String) (user : Option CurrentUser) (now : Nat)
    (st : AgentState) : String × AgentState :=
  if needsNewSession st.sessions sid then create_session user now st
  else (sid.getD "", st)

/-! ### The external collaborator -/

/-- Observable behaviour of one invocation of the external
`get_stream_agent_responce` (line 64): the text fragments it yields, and
whether it then completes normally (`ok`) or raises (`err`) — `err []`
covers the call itself raising before any fragment is produced. -/
inductive CollabOutcome where
  | ok (frags : List String)
  | err (frags : List String)
deriving DecidableEq, Repr

/-- The external collaborator as a parameter of the model: a function from
the arguments the source passes it — session id, message, username
(the environment-sourced `md_uri` of line 67 is folded into the closure) —
to the observable outcome of the invocation. -/
def Collab : Type := String → String → String → CollabOutcome

/-- The fixed message yielded by `get_response_stream` when the
collaborator raises (line 77). -/
def error_message : String :=
  "I'm sorry, I encountered an error while processing your request. Please try again."

/-- The fixed fallback returned by `sync_get_response`'s own exception
handler (line 100). -/
def fallback_response : String :=
  "I'm experiencing technical difficulties. Please try again later."

/-- The fixed apology carried by the streaming `error` event (line 713). -/
def stream_error_content : String :=
  "I encountered an error. Please try again."

/-- Fragments that reach the consumer of `get_response_stream`'s loop,
lines 71-78: yielded fragments pass the `if chunk:` truthiness filter
(non-empty), and when the collaborator raises, the `except` branch yields
the fixed `error_message` as one further fragment and the generator then
completes normally — the exception is NOT re-raised. -/
def collabFrags : CollabOutcome → List String
  | .ok frags => frags.filter (fun c => c ≠ "")
  | .err frags => frags.filter (fun c => c ≠ "") ++ [error_message]

/-- The username stored for `sid`, defaulting to `"anonymous"`
(`self.sessions[session_id].get('username', 'anonymous')`, line 61; the
source would raise on a missing session, but both call sites run it only
after `ensureSession` has put `sid` into the registry). -/
def sessionUsername (sid : String) (st : AgentState) : String :=
  ((dictGet sid st.sessions).map SessionMeta.username).getD "anonymous"

/-- The username actually handed to the collaborator, following
lines 60-61: an absent or empty caller-supplied username falls back to
the one recorded for the session. -/
def effectiveUsername (username : Option String) (sid : String) (st : AgentState) : String :=
  match username with
  | some u => if u = "" then sessionUsername sid st else u
  | none => sessionUsername sid st

/-- Model of `AIAssistantAgent.get_response_stream` (lines 55-78) as the list of
fragments it yields when fully consumed, together with the state after
its create-if-unknown step. -/
def get_response_stream (collab : Collab) (msg : String) (sid : Option String)
    (username : Option String) (user : Option CurrentUser) (now : Nat)
    (st : AgentState) : List String × AgentState :=
  let es := ensureSession sid user now st
  (collabFrags (collab es.1 msg (effectiveUsername username es.1 es.2)), es.2)

/-- Injection point for an exception raised by the non-collaborator
machinery of `sync_get_response` (event-loop construction and teardown,
lines 86-96): before or after the create-if-unknown step of lines 83-84.
Collaborator failures never reach this handler — they are absorbed inside
`get_response_stream`. -/
inductive SyncFault where
  | beforeEnsure
  | afterEnsure
deriving DecidableEq, Repr

/-- Model of `AIAssistantAgent.sync_get_response` (lines 80-106): run the stream to
completion and join the parts (`''.join(response_parts)`), returning
`(complete_response, session_id)`.  Its `except` branch (lines 98-101)
returns the fixed `fallback_response` and `session_id or
self.create_session()` — the supplied id when truthy, else a fresh one. -/
def sync_get_response (collab : Collab) (fault : Option SyncFault) (msg : String)
    (sid : Option String) (username : Option String) (user : Option CurrentUser)
    (now : Nat) (st : AgentState) : String × String × AgentState :=
  match fault with
  | some .beforeEnsure =>
    match sid with
    | some s =>
      if s = "" then
        let cs := create_session user now st
        (fallback_response, cs.1, cs.2)
      else (fallback_response, s, st)
    | none =>
      let cs := create_session user now st
      (fallback_response, cs.1, cs.2)
  | some .afterEnsure =>
    let es := ensureSession sid user now st
    (fallback_response, es.1, es.2)
  | none =>
    let es := ensureSession sid user now st
    let gr := get_response_stream collab msg (some es.1) username user now es.2
    (String.join gr.1, es.1, gr.2)

/-! ### The streaming event layer -/

/-- One server-sent frame of the streaming chat endpoint, identified by
the `type` discriminator of its JSON payload (lines 686, 694, 707,
711-715). -/
inductive Event where
  | session (sessionId : String)
  | chunk (content : String)
  | error (content : String)
  | done
deriving DecidableEq, Repr

/-- Python's `str.strip()` with no arguments: remove leading and trailing
whitespace.  (Kernel-computable, unlike `String.trim`; restricted to the
ASCII whitespace of `Char.isWhitespace`, which covers the source's use.) -/
def pyStrip (s : String) : String :=
  String.mk (((s.data.dropWhile Char.isWhitespace).reverse.dropWhile
    Char.isWhitespace).reverse)

/-- The fragment filter of `stream_response` (line 693):
`if chunk and chunk.strip()` — non-empty and not whitespace-only. -/
def keepChunk (c : String) : Bool := c ≠ "" && pyStrip c ≠ ""

/-- The fault-free event sequence of `generate_stream` (lines 678-707):
session event, one chunk event per fragment passing `keepChunk`, then
`done`; together with the state after the run. -/
def streamEvents (collab : Collab) (msg : String) (sid : Option String)
    (user : Option CurrentUser) (now : Nat) (st : AgentState) :
    List Event × AgentState :=
  let es := ensureSession sid user now st
  let uname := resolveUsername user
  let gr := get_response_stream collab msg (some es.1) (some uname) user now es.2
  (Event.session es.1 :: ((gr.1.filter keepChunk).map Event.chunk ++ [Event.done]), gr.2)

/-- Model of `chat_stream_api.generate_stream` (lines 676-715).  `fault = some k`
injects an exception raised by the handler's own machinery after `k`
frames have been yielded; the `except` branch (lines 709-715) then yields
a single `error` frame and the generator ends.  Frames already yielded
stand.  (Registry effects that happened before the fault also stand; the
post-run state is returned unchanged by the fault, an over-approximation
no theorem below relies on.)  `fault = none` is the fault-free run. -/
def generate_stream (collab : Collab) (fault : Option Nat) (msg : String)
    (sid : Option String) (user : Option CurrentUser) (now : Nat)
    (st : AgentState) : List Event × AgentState :=
  let se := streamEvents collab msg sid user now st
  match fault with
  | none => se
  | some k => (se.1.take k ++ [Event.error stream_error_content], se.2)

/-! ### The HTTP endpoint layer -/

/-- A JSON response of the endpoint layer: status code plus the key/value
pairs of its flat JSON object body. -/
structure HttpResponse where
  status : Nat
  body : List (String × String)
deriving DecidableEq, Repr

/-- Result of `chat_stream_api`: either an immediate JSON error response
(validation failure, line 674) or the event stream. -/
inductive ChatStreamResult where
  | httpError (resp : HttpResponse)
  | stream (events : List Event)
deriving DecidableEq, Repr

/-- Model of `AISupersetAssistantView.new_session` (lines 628-638). -/
def new_session (user : Option CurrentUser) (now : Nat) (st : AgentState) :
    HttpResponse × AgentState :=
  let cs := create_session user now st
  (⟨200, [("session_id", cs.1), ("status", "created"),
          ("message", "New session initialized")]⟩, cs.2)

/-- Model of `AISupersetAssistantView.chat_api` (lines 640-662): strip the message,
reject a blank one with 400 before anything else runs, otherwise resolve
the username and delegate to `sync_get_response`.  Its inner `except`
(lines 660-662) is unreachable in the model because `sync_get_response`
is total. -/
def chat_api (collab : Collab) (fault : Option SyncFault) (msgOpt : Option String)
    (sidOpt : Option String) (user : Option CurrentUser) (now : Nat)
    (st : AgentState) : HttpResponse × AgentState :=
  let message := pyStrip (msgOpt.getD "")
  if message = "" then
    (⟨400, [("error", "Message is required")]⟩, st)
  else
    let username := resolveUsername user
    let r := sync_get_response collab fault message sidOpt (some username) user now st
    (⟨200, [("response", r.1), ("session_id", r.2.1), ("timestamp", toString now)]⟩,
     r.2.2)

/-- Model of `AISupersetAssistantView.chat_stream_api` (lines 664-725): strip the
message, reject a blank one with 400 before any frame is produced,
otherwise the response body is the generator's frame sequence. -/
def chat_stream_api (collab : Collab) (fault : Option Nat) (msgOpt : Option String)
    (sidOpt : Option String) (user : Option CurrentUser) (now : Nat)
    (st : AgentState) : ChatStreamResult × AgentState :=
  let message := pyStrip (msgOpt.getD "")
  if message = "" then
    (.httpError ⟨400, [("error", "Message is required")]⟩, st)
  else
    let gs := generate_stream collab fault message sidOpt user now st
    (.stream gs.1, gs.2)

/-- Model of `AISupersetAssistantView.clear_session` (lines 727-739):
`if session_id and session_id in self.ai_agent.sessions: del …; 200`
else 404.  A missing, null or empty id is falsy and falls through to the
404 branch without touching the registry. -/
def clear_session (sidOpt : Option String) (st : AgentState) :
    HttpResponse × AgentState :=
  match sidOpt with
  | some s =>
    if s ≠ "" && (dictGet s st.sessions).isSome then
      (⟨200, [("message", "Session cleared successfully")]⟩,
       { st with sessions := st.sessions.filter (fun p => p.1 ≠ s) })
    else (⟨404, [("error", "Session not found")]⟩, st)
  | none => (⟨404, [("error", "Session not found")]⟩, st)

/-! ### Last helper definitions and lemmas for the claims -/

/-- Recogniser for streaming `error` frames. -/
def isErrorEvent : Event → Bool
  | .error _ => true
  | _ => false

/-- First frame of a streaming-chat result, if the result is a stream. -/
def streamHead : ChatStreamResult → Option Event
  | .httpError _ => none
  | .stream evs => evs.head?

/-! ## Theorems -/

theorem hexVal_hexChar {n : Nat} (h : n < 16) : hexVal (hexChar n) = n := by
  interval_cases n <;> decide

theorem isHexChar_hexChar {n : Nat} (h : n < 16) : isHexChar (hexChar n) = true := by
  interval_cases n <;> decide

@[simp]
theorem length_natToHexList (w n : Nat) : (natToHexList w n).length = w := by
  induction w generalizing n with
  | zero => rfl
  | succ w ih => simp [natToHexList, ih]

theorem hexListVal_append_singleton (l : List Char) (c : Char) :
    hexListVal (l ++ [c]) = 16 * hexListVal l + hexVal c := by
  simp [hexListVal, List.foldl_append]

theorem hexListVal_natToHexList {w n : Nat} (h : n < 16 ^ w) :
    hexListVal (natToHexList w n) = n := by
  induction w generalizing n with
  | zero =>
    have : n = 0 := Nat.lt_one_iff.mp (by simpa using h)
    simp [this, natToHexList, hexListVal]
  | succ w ih =>
    have hdiv : n / 16 < 16 ^ w := by
      have : n < 16 ^ w * 16 := by
        simpa [Nat.pow_succ] using h
      exact Nat.div_lt_of_lt_mul (by simpa [Nat.mul_comm] using this)
    have hmod : n % 16 < 16 := Nat.mod_lt _ (by norm_num)
    calc hexListVal (natToHexList (w + 1) n)
        = 16 * hexListVal (natToHexList w (n / 16)) + hexVal (hexChar (n % 16)) := by
          simp [natToHexList, hexListVal_append_singleton]
      _ = 16 * (n / 16) + n % 16 := by rw [ih hdiv, hexVal_hexChar hmod]
      _ = n := by omega

theorem natToHexList_injOn {w m n : Nat} (hm : m < 16 ^ w) (hn : n < 16 ^ w)
    (h : natToHexList w m = natToHexList w n) : m = n := by
  have := congrArg hexListVal h
  rwa [hexListVal_natToHexList hm, hexListVal_natToHexList hn] at this

theorem all_isHexChar_natToHexList (w n : Nat) :
    (natToHexList w n).all isHexChar = true := by
  induction w generalizing n with
  | zero => rfl
  | succ w ih =>
    have hmod : n % 16 < 16 := Nat.mod_lt _ (by norm_num)
    simp [natToHexList, List.all_append, ih, isHexChar_hexChar hmod]

theorem validUuid_uuid4 {n : Nat} (_h : n < 16 ^ 12) :
    validUuid (uuid4 n) = true := by
  have htail : (natToHexList 12 n).all isHexChar = true := all_isHexChar_natToHexList 12 n
  show validUuidChars (uuidStem ++ natToHexList 12 n) = true
  rw [validUuidChars]
  have hstem : uuidStem.length = 24 := by decide
  have h1 : (uuidStem ++ natToHexList 12 n).length = 36 := by
    simp [hstem]
  have h2 : (uuidStem ++ natToHexList 12 n).take 8 = uuidStem.take 8 :=
    List.take_append_of_le_length (by simp [hstem])
  have h3 : ((uuidStem ++ natToHexList 12 n).drop 9).take 4 = (uuidStem.drop 9).take 4 := by
    rw [List.drop_append_of_le_length (by simp [hstem])]
    exact List.take_append_of_le_length (by simp [hstem])
  have h4 : ((uuidStem ++ natToHexList 12 n).drop 15).take 3 = (uuidStem.drop 15).take 3 := by
    rw [List.drop_append_of_le_length (by simp [hstem])]
    exact List.take_append_of_le_length (by simp [hstem])
  have h5 : ((uuidStem ++ natToHexList 12 n).drop 20).take 3 = (uuidStem.drop 20).take 3 := by
    rw [List.drop_append_of_le_length (by simp [hstem])]
    exact List.take_append_of_le_length (by simp [hstem])
  have h6 : (uuidStem ++ natToHexList 12 n).drop 24 = natToHexList 12 n := by
    have h24 : (24 : Nat) ≤ uuidStem.length := by simp [hstem]
    rw [List.drop_append_of_le_length h24]
    have : uuidStem.drop 24 = [] := by decide
    simp [this]
  have hgd : ∀ i : Nat, i < 24 →
      (uuidStem ++ natToHexList 12 n).getD i '?' = uuidStem.getD i '?' := by
    intro i hi
    exact List.getD_append _ _ _ _ (by simp [hstem, hi])
  rw [h1, h2, h3, h4, h5, h6, hgd 8 (by norm_num), hgd 13 (by norm_num),
    hgd 18 (by norm_num), hgd 23 (by norm_num), hgd 14 (by norm_num), hgd 19 (by norm_num),
    htail]
  decide

theorem uuid4_injOn {m n : Nat} (hm : m < 16 ^ 12) (hn : n < 16 ^ 12)
    (h : uuid4 m = uuid4 n) : m = n := by
  have hdata : uuidStem ++ natToHexList 12 m = uuidStem ++ natToHexList 12 n :=
    congrArg String.data h
  exact natToHexList_injOn hm hn (List.append_cancel_left hdata)

theorem uuid4_ne_empty (n : Nat) : uuid4 n ≠ "" := by
  intro h
  have hdata : uuidStem ++ natToHexList 12 n = [] := congrArg String.data h
  have : (uuidStem ++ natToHexList 12 n).length = 0 := by rw [hdata]; rfl
  simp [uuidStem] at this

/-! ### Helper lemmas: dict operations -/

theorem dictGet_filter_self (s : String) (l : List (String × SessionMeta)) :
    dictGet s (l.filter (fun p => p.1 ≠ s)) = none := by
  induction l with
  | nil => rfl
  | cons kv rest ih =>
    obtain ⟨k, v⟩ := kv
    by_cases hk : k = s
    · simpa [List.filter_cons, hk] using ih
    · simpa [List.filter_cons, hk, dictGet] using ih

theorem dictGet_mem {s : String} {l : List (String × SessionMeta)} {m : SessionMeta}
    (h : dictGet s l = some m) : (s, m) ∈ l := by
  induction l with
  | nil => simp [dictGet] at h
  | cons kv rest ih =>
    obtain ⟨k, v⟩ := kv
    by_cases hk : k = s
    · subst hk
      simp [dictGet] at h
      subst h
      exact List.mem_cons_self _ _
    · simp [dictGet, hk] at h
      exact List.mem_cons_of_mem _ (ih h)

theorem ne_empty_of_dictGet_isSome {st : AgentState} {s : String}
    (hwf : ∀ p ∈ st.sessions, p.1 ≠ "")
    (hmem : (dictGet s st.sessions).isSome = true) : s ≠ "" := by
  obtain ⟨m, hm⟩ := Option.isSome_iff_exists.mp hmem
  exact hwf (s, m) (dictGet_mem hm)

/-! ### Helper lemmas: session creation and lookup -/

theorem needsNewSession_eq_false {st : AgentState} {s : String} (hs : s ≠ "")
    (hmem : (dictGet s st.sessions).isSome = true) :
    needsNewSession st.sessions (some s) = false := by
  cases hd : dictGet s st.sessions with
  | none => rw [hd] at hmem; simp at hmem
  | some m => simp [needsNewSession, hs, hd]

theorem ensureSession_of_known {st : AgentState} {s : String}
    (user : Option CurrentUser) (now : Nat) (hs : s ≠ "")
    (hmem : (dictGet s st.sessions).isSome = true) :
    ensureSession (some s) user now st = (s, st) := by
  simp [ensureSession, needsNewSession_eq_false hs hmem]

theorem ensureSession_fst_ne_empty (sid : Option String) (user : Option CurrentUser)
    (now : Nat) (st : AgentState) : (ensureSession sid user now st).1 ≠ "" := by
  unfold ensureSession
  split
  · exact uuid4_ne_empty st.counter
  · next h =>
    cases sid with
    | none => simp [needsNewSession] at h
    | some s =>
      simp only [needsNewSession, Bool.or_eq_true, beq_iff_eq, not_or] at h
      simpa using h.1

theorem dictGet_ensureSession_self (sid : Option String) (user : Option CurrentUser)
    (now : Nat) (st : AgentState) :
    (dictGet (ensureSession sid user now st).1
      (ensureSession sid user now st).2.sessions).isSome = true := by
  unfold ensureSession
  split
  · simp [create_session, dictGet]
  · next h =>
    cases sid with
    | none => simp [needsNewSession] at h
    | some s =>
      simp only [needsNewSession, Bool.or_eq_true, beq_iff_eq, not_or] at h
      have h2 := h.2
      simp only [Option.getD_some]
      cases hd : dictGet s st.sessions with
      | none => rw [hd] at h2; simp at h2
      | some m => simp

/-! ### Helper lemmas: string joining -/

theorem join_append_singleton (l : List String) (x : String) :
    String.join (l ++ [x]) = String.join l ++ x := by
  simp [String.join, List.foldl_append]

theorem foldl_append_filter_ne (l : List String) (acc : String) :
    (l.filter fun s => s ≠ "").foldl (fun r s => r ++ s) acc
      = l.foldl (fun r s => r ++ s) acc := by
  induction l generalizing acc with
  | nil => rfl
  | cons s l ih =>
    by_cases hs : s = ""
    · subst hs
      have hp : (decide (("" : String) ≠ "")) = false := by decide
      rw [List.filter_cons, hp, if_neg (by simp), List.foldl_cons]
      have hacc : acc ++ "" = acc := by simp
      rw [hacc]
      exact ih acc
    · have hp : (decide (s ≠ "")) = true := by simp [hs]
      rw [List.filter_cons, hp, if_pos rfl, List.foldl_cons, List.foldl_cons]
      exact ih (acc ++ s)

theorem join_filter_ne (l : List String) :
    String.join (l.filter fun s => s ≠ "") = String.join l := by
  simpa [String.join] using foldl_append_filter_ne l ""

theorem filter_keepChunk_filter_ne (l : List String) :
    ((l.filter fun s => s ≠ "").filter keepChunk) = l.filter keepChunk := by
  rw [List.filter_filter]
  apply List.filter_congr
  intro a _
  by_cases ha : a = ""
  · subst ha; simp [keepChunk]
  · simp [keepChunk, ha]

/-! ### Helper lemmas: characterisations of the relay paths -/

theorem get_response_stream_of_known {st : AgentState} {s : String}
    (collab : Collab) (msg : String) (username : Option String)
    (user : Option CurrentUser) (now : Nat) (hs : s ≠ "")
    (hmem : (dictGet s st.sessions).isSome = true) :
    get_response_stream collab msg (some s) username user now st
      = (collabFrags (collab s msg (effectiveUsername username s st)), st) := by
  have he : ensureSession (some s) user now st = (s, st) :=
    ensureSession_of_known user now hs hmem
  simp [get_response_stream, he]

theorem sync_get_response_eq (collab : Collab) (msg : String) (sid : Option String)
    (username : Option String) (user : Option CurrentUser) (now : Nat)
    (st : AgentState) :
    sync_get_response collab none msg sid username user now st
      = (String.join (collabFrags (collab (ensureSession sid user now st).1 msg
            (effectiveUsername username (ensureSession sid user now st).1
              (ensureSession sid user now st).2))),
         (ensureSession sid user now st).1, (ensureSession sid user now st).2) := by
  have h1 := ensureSession_fst_ne_empty sid user now st
  have h2 := dictGet_ensureSession_self sid user now st
  simp only [sync_get_response]
  rw [get_response_stream_of_known collab msg username user now h1 h2]

theorem streamEvents_eq (collab : Collab) (msg : String) (sid : Option String)
    (user : Option CurrentUser) (now : Nat) (st : AgentState) :
    streamEvents collab msg sid user now st
      = (Event.session (ensureSession sid user now st).1 ::
          (((collabFrags (collab (ensureSession sid user now st).1 msg
              (effectiveUsername (some (resolveUsername user))
                (ensureSession sid user now st).1
                (ensureSession sid user now st).2))).filter keepChunk).map Event.chunk
            ++ [Event.done]),
         (ensureSession sid user now st).2) := by
  have h1 := ensureSession_fst_ne_empty sid user now st
  have h2 := dictGet_ensureSession_self sid user now st
  simp only [streamEvents]
  rw [get_response_stream_of_known collab msg (some (resolveUsername user)) user now h1 h2]

/-- The error fragment injected on collaborator failure is itself a
non-blank chunk, so the streaming filter keeps it. -/
theorem keepChunk_error_message : keepChunk error_message = true := by decide

theorem join_collabFrags_ok (frags : List String) :
    String.join (collabFrags (.ok frags)) = String.join frags :=
  join_filter_ne frags

theorem join_collabFrags_err (frags : List String) :
    String.join (collabFrags (.err frags)) = String.join frags ++ error_message := by
  show String.join (frags.filter (fun c => c ≠ "") ++ [error_message]) = _
  rw [join_append_singleton, join_filter_ne]

theorem filter_keepChunk_collabFrags_ok (frags : List String) :
    (collabFrags (.ok frags)).filter keepChunk = frags.filter keepChunk :=
  filter_keepChunk_filter_ne frags

theorem filter_keepChunk_collabFrags_err (frags : List String) :
    (collabFrags (.err frags)).filter keepChunk
      = frags.filter keepChunk ++ [error_message] := by
  show ((frags.filter (fun c => c ≠ "")) ++ [error_message]).filter keepChunk = _
  rw [List.filter_append, filter_keepChunk_filter_ne]
  congr 1

/-! ### Helper lemmas: the registry never holds an empty key -/

theorem keysNonempty_create_session {st : AgentState} (user : Option CurrentUser)
    (now : Nat) (h : ∀ p ∈ st.sessions, p.1 ≠ "") :
    ∀ p ∈ (create_session user now st).2.sessions, p.1 ≠ "" := by
  intro p hp
  simp only [create_session, List.mem_cons] at hp
  rcases hp with hp | hp
  · subst hp; exact uuid4_ne_empty st.counter
  · exact h p (List.mem_of_mem_filter hp)

theorem keysNonempty_ensureSession {st : AgentState} (sid : Option String)
    (user : Option CurrentUser) (now : Nat) (h : ∀ p ∈ st.sessions, p.1 ≠ "") :
    ∀ p ∈ (ensureSession sid user now st).2.sessions, p.1 ≠ "" := by
  unfold ensureSession
  split
  · exact keysNonempty_create_session user now h
  · exact h

/-! ### Helper lemmas: characterisations of the endpoint layer -/

theorem clear_session_of_found {st : AgentState} {s : String} (hs : s ≠ "")
    (hmem : (dictGet s st.sessions).isSome = true) :
    clear_session (some s) st
      = (⟨200, [("message", "Session cleared successfully")]⟩,
         { st with sessions := st.sessions.filter (fun p => p.1 ≠ s) }) := by
  simp [clear_session, hs, hmem]

theorem clear_session_of_missing {st : AgentState} {s : String}
    (hmem : dictGet s st.sessions = none) :
    clear_session (some s) st = (⟨404, [("error", "Session not found")]⟩, st) := by
  simp [clear_session, hmem]

theorem clear_session_of_empty (st : AgentState) :
    clear_session (some "") st = (⟨404, [("error", "Session not found")]⟩, st) := by
  simp [clear_session]

theorem clear_session_of_none (st : AgentState) :
    clear_session none st = (⟨404, [("error", "Session not found")]⟩, st) := rfl

theorem chat_api_of_blank {msgOpt : Option String} (collab : Collab)
    (fault : Option SyncFault) (sidOpt : Option String) (user : Option CurrentUser)
    (now : Nat) (st : AgentState) (hm : pyStrip (msgOpt.getD "") = "") :
    chat_api collab fault msgOpt sidOpt user now st
      = (⟨400, [("error", "Message is required")]⟩, st) := by
  simp [chat_api, hm]

theorem chat_api_of_message {msgOpt : Option String} (collab : Collab)
    (fault : Option SyncFault) (sidOpt : Option String) (user : Option CurrentUser)
    (now : Nat) (st : AgentState) (hm : pyStrip (msgOpt.getD "") ≠ "") :
    chat_api collab fault msgOpt sidOpt user now st
      = (⟨200, [("response",
            (sync_get_response collab fault (pyStrip (msgOpt.getD "")) sidOpt
              (some (resolveUsername user)) user now st).1),
          ("session_id",
            (sync_get_response collab fault (pyStrip (msgOpt.getD "")) sidOpt
              (some (resolveUsername user)) user now st).2.1),
          ("timestamp", toString now)]⟩,
         (sync_get_response collab fault (pyStrip (msgOpt.getD "")) sidOpt
           (some (resolveUsername user)) user now st).2.2) := by
  simp [chat_api, hm]

theorem chat_stream_api_of_blank {msgOpt : Option String} (collab : Collab)
    (fault : Option Nat) (sidOpt : Option String) (user : Option CurrentUser)
    (now : Nat) (st : AgentState) (hm : pyStrip (msgOpt.getD "") = "") :
    chat_stream_api collab fault msgOpt sidOpt user now st
      = (.httpError ⟨400, [("error", "Message is required")]⟩, st) := by
  simp [chat_stream_api, hm]

theorem chat_stream_api_of_message {msgOpt : Option String} (collab : Collab)
    (fault : Option Nat) (sidOpt : Option String) (user : Option CurrentUser)
    (now : Nat) (st : AgentState) (hm : pyStrip (msgOpt.getD "") ≠ "") :
    chat_stream_api collab fault msgOpt sidOpt user now st
      = (.stream (generate_stream collab fault (pyStrip (msgOpt.getD "")) sidOpt user now st).1,
         (generate_stream collab fault (pyStrip (msgOpt.getD "")) sidOpt user now st).2) := by
  simp [chat_stream_api, hm]

theorem generate_stream_of_no_fault (collab : Collab) (msg : String)
    (sid : Option String) (user : Option CurrentUser) (now : Nat) (st : AgentState) :
    generate_stream collab none msg sid user now st
      = streamEvents collab msg sid user now st := rfl

theorem generate_stream_of_fault (collab : Collab) (k : Nat) (msg : String)
    (sid : Option String) (user : Option CurrentUser) (now : Nat) (st : AgentState) :
    generate_stream collab (some k) msg sid user now st
      = ((streamEvents collab msg sid user now st).1.take k
          ++ [Event.error stream_error_content],
         (streamEvents collab msg sid user now st).2) := rfl

/-! ### Helper lemmas: the registry never holds an empty key, continued -/

theorem keysNonempty_clear_session {st : AgentState} (sidOpt : Option String)
    (h : ∀ p ∈ st.sessions, p.1 ≠ "") :
    ∀ p ∈ (clear_session sidOpt st).2.sessions, p.1 ≠ "" := by
  cases sidOpt with
  | none => rw [clear_session_of_none]; exact h
  | some s =>
    by_cases hs : s = ""
    · subst hs; rw [clear_session_of_empty]; exact h
    · cases hd : dictGet s st.sessions with
      | none => rw [clear_session_of_missing hd]; exact h
      | some m =>
        rw [clear_session_of_found hs (by simp [hd])]
        exact fun p hp => h p (List.mem_of_mem_filter hp)

theorem sync_get_response_beforeEnsure_none (collab : Collab) (msg : String)
    (username : Option String) (user : Option CurrentUser) (now : Nat)
    (st : AgentState) :
    sync_get_response collab (some .beforeEnsure) msg none username user now st
      = (fallback_response, (create_session user now st).1,
         (create_session user now st).2) := rfl

theorem sync_get_response_beforeEnsure_empty (collab : Collab) (msg : String)
    (username : Option String) (user : Option CurrentUser) (now : Nat)
    (st : AgentState) :
    sync_get_response collab (some .beforeEnsure) msg (some "") username user now st
      = (fallback_response, (create_session user now st).1,
         (create_session user now st).2) := by
  simp [sync_get_response]

theorem sync_get_response_beforeEnsure_of_ne {s : String} (collab : Collab)
    (msg : String) (username : Option String) (user : Option CurrentUser)
    (now : Nat) (st : AgentState) (hs : s ≠ "") :
    sync_get_response collab (some .beforeEnsure) msg (some s) username user now st
      = (fallback_response, s, st) := by
  simp [sync_get_response, hs]

theorem sync_get_response_afterEnsure (collab : Collab) (msg : String)
    (sid : Option String) (username : Option String) (user : Option CurrentUser)
    (now : Nat) (st : AgentState) :
    sync_get_response collab (some .afterEnsure) msg sid username user now st
      = (fallback_response, (ensureSession sid user now st).1,
         (ensureSession sid user now st).2) := rfl

theorem keysNonempty_sync_get_response {st : AgentState} (collab : Collab)
    (fault : Option SyncFault) (msg : String) (sid : Option String)
    (username : Option String) (user : Option CurrentUser) (now : Nat)
    (h : ∀ p ∈ st.sessions, p.1 ≠ "") :
    ∀ p ∈ (sync_get_response collab fault msg sid username user now st).2.2.sessions,
      p.1 ≠ "" := by
  cases fault with
  | none =>
    rw [sync_get_response_eq]
    exact keysNonempty_ensureSession sid user now h
  | some f =>
    cases f with
    | afterEnsure =>
      rw [sync_get_response_afterEnsure]
      exact keysNonempty_ensureSession sid user now h
    | beforeEnsure =>
      cases sid with
      | none =>
        rw [sync_get_response_beforeEnsure_none]
        exact keysNonempty_create_session user now h
      | some s =>
        by_cases hs : s = ""
        · subst hs
          rw [sync_get_response_beforeEnsure_empty]
          exact keysNonempty_create_session user now h
        · rw [sync_get_response_beforeEnsure_of_ne collab msg username user now st hs]
          exact h

theorem keysNonempty_chat_api {st : AgentState} (collab : Collab)
    (fault : Option SyncFault) (msgOpt sidOpt : Option String)
    (user : Option CurrentUser) (now : Nat) (h : ∀ p ∈ st.sessions, p.1 ≠ "") :
    ∀ p ∈ (chat_api collab fault msgOpt sidOpt user now st).2.sessions, p.1 ≠ "" := by
  by_cases hm : pyStrip (msgOpt.getD "") = ""
  · rw [chat_api_of_blank collab fault sidOpt user now st hm]; exact h
  · rw [chat_api_of_message collab fault sidOpt user now st hm]
    exact keysNonempty_sync_get_response collab fault _ sidOpt _ user now h

theorem keysNonempty_chat_stream_api {st : AgentState} (collab : Collab)
    (fault : Option Nat) (msgOpt sidOpt : Option String)
    (user : Option CurrentUser) (now : Nat) (h : ∀ p ∈ st.sessions, p.1 ≠ "") :
    ∀ p ∈ (chat_stream_api collab fault msgOpt sidOpt user now st).2.sessions,
      p.1 ≠ "" := by
  have hse : ∀ p ∈ (streamEvents collab (pyStrip (msgOpt.getD "")) sidOpt user now st).2.sessions,
      p.1 ≠ "" := by
    rw [streamEvents_eq]
    exact keysNonempty_ensureSession sidOpt user now h
  by_cases hm : pyStrip (msgOpt.getD "") = ""
  · rw [chat_stream_api_of_blank collab fault sidOpt user now st hm]; exact h
  · rw [chat_stream_api_of_message collab fault sidOpt user now st hm]
    cases fault with
    | none => rw [generate_stream_of_no_fault]; exact hse
    | some k => rw [generate_stream_of_fault]; exact hse

theorem keysNonempty_new_session {st : AgentState} (user : Option CurrentUser)
    (now : Nat) (h : ∀ p ∈ st.sessions, p.1 ≠ "") :
    ∀ p ∈ (new_session user now st).2.sessions, p.1 ≠ "" :=
  keysNonempty_create_session user now h

theorem ensureSession_of_new {st : AgentState} {sid : Option String}
    (user : Option CurrentUser) (now : Nat)
    (hn : needsNewSession st.sessions sid = true) :
    ensureSession sid user now st = create_session user now st := by
  simp [ensureSession, hn]

theorem dictGet_create_session_self (user : Option CurrentUser) (now : Nat)
    (st : AgentState) :
    dictGet (create_session user now st).1 (create_session user now st).2.sessions
      = some ⟨now, resolveUsername user⟩ := by
  simp [create_session, dictGet]

theorem not_isErrorEvent_streamEvents (collab : Collab) (msg : String)
    (sid : Option String) (user : Option CurrentUser) (now : Nat)
    (st : AgentState) :
    ∀ e ∈ (streamEvents collab msg sid user now st).1, isErrorEvent e = false := by
  intro e he
  rw [streamEvents_eq] at he
  simp only [List.mem_cons, List.mem_append, List.mem_map, List.mem_singleton,
    List.not_mem_nil, or_false] at he
  rcases he with rfl | ⟨⟨a, _, rfl⟩ | rfl⟩ <;> rfl

/-! ## The claims -/

/-- Claim C1, counterexample.  The claim says that when the collaborator
raises inside the one-shot path, `sync_get_response` returns "the fixed
fallback string".  In the source, `get_response_stream` catches the
collaborator's exception itself (lines 75-78) and yields the fixed
`error_message` as an ordinary fragment, so `sync_get_response` returns
the fragments yielded before the failure concatenated with that message.
Concretely: a collaborator that yields `"A"` and then raises makes
`sync_get_response` return `"A" ++ error_message`, which is neither the
`fallback_response` of lines 98-101 nor the bare `error_message` — no
fixed string is returned. -/
theorem c1_counterexample :
    (sync_get_response (fun _ _ _ => .err ["A"]) none "hi" none none none 5
        ⟨[], 0⟩).1 = "A" ++ error_message ∧
    (sync_get_response (fun _ _ _ => .err ["A"]) none "hi" none none none 5
        ⟨[], 0⟩).1 ≠ fallback_response ∧
    (sync_get_response (fun _ _ _ => .err ["A"]) none "hi" none none none 5
        ⟨[], 0⟩).1 ≠ error_message :=
  ⟨by decide, by decide, by decide⟩

/-- Claim C1 (amended): for every message and session id, if the external
collaborator raises during the one-shot chat path after yielding some
fragments, then `sync_get_response` returns the concatenation of those
fragments followed by the fixed `error_message` (so exactly the fixed
message when the collaborator raised before yielding anything), together
with a session id that is recorded in the registry (created if
necessary); being a total function of the model, it never propagates an
exception to its caller. -/
theorem c1_amended_sync_collab_raise (collab : Collab) (frags : List String)
    (msg : String) (sid : Option String) (username : Option String)
    (user : Option CurrentUser) (now : Nat) (st : AgentState)
    (hc : collab (ensureSession sid user now st).1 msg
        (effectiveUsername username (ensureSession sid user now st).1
          (ensureSession sid user now st).2) = .err frags) :
    (sync_get_response collab none msg sid username user now st).1
        = String.join frags ++ error_message ∧
    (sync_get_response collab none msg sid username user now st).2.1
        = (ensureSession sid user now st).1 ∧
    (dictGet (sync_get_response collab none msg sid username user now st).2.1
        (sync_get_response collab none msg sid username user now st).2.2.sessions).isSome
        = true := by
  refine ⟨?_, ?_, ?_⟩
  · rw [sync_get_response_eq, hc, join_collabFrags_err]
  · rw [sync_get_response_eq]
  · rw [sync_get_response_eq]
    exact dictGet_ensureSession_self sid user now st

/-- Witness for C1 (amended) at a concrete input: collaborator yields
`"A"` and `"B"` then raises; no session supplied. -/
theorem c1_amended_sync_collab_raise_witness :
    (sync_get_response (fun _ _ _ => .err ["A", "B"]) none "q" none none none 7
        ⟨[], 0⟩).1 = String.join ["A", "B"] ++ error_message ∧
    (sync_get_response (fun _ _ _ => .err ["A", "B"]) none "q" none none none 7
        ⟨[], 0⟩).2.1 = (ensureSession none none 7 ⟨[], 0⟩).1 ∧
    (dictGet (sync_get_response (fun _ _ _ => .err ["A", "B"]) none "q" none none none 7
        ⟨[], 0⟩).2.1
      (sync_get_response (fun _ _ _ => .err ["A", "B"]) none "q" none none none 7
        ⟨[], 0⟩).2.2.sessions).isSome = true :=
  c1_amended_sync_collab_raise (fun _ _ _ => .err ["A", "B"]) ["A", "B"] "q"
    none none none 7 ⟨[], 0⟩ rfl

/-- Claim C2, counterexample.  The claim says that when the collaborator
raises before yielding any fragment, the streaming endpoint emits a
`session` event then a single `error` event and no `chunk` events.  In
the source the exception never reaches `generate_stream`'s `except`
branch: `get_response_stream` absorbs it (lines 75-78) and yields the
fixed `error_message` as a fragment, which `stream_response` forwards as
an ordinary `chunk` event, and the stream then ends with `done`.
Concretely, for message `"hi"` on a fresh state, the emitted stream is
`session`, `chunk error_message`, `done` — it contains a `chunk` event
and no `error` event. -/
theorem c2_counterexample :
    (chat_stream_api (fun _ _ _ => .err []) none (some "hi") none none 5
        ⟨[], 0⟩).1
      = .stream [Event.session (uuid4 0), Event.chunk error_message, Event.done] ∧
    ([Event.session (uuid4 0), Event.chunk error_message, Event.done].all
      (fun e => !(isErrorEvent e))) = true :=
  ⟨by decide, by decide⟩

/-- Claim C2 (amended): for every message that is non-blank after
stripping (others are rejected with 400 before any frame is emitted), if
the external collaborator raises before yielding any fragment, the
streaming chat endpoint emits exactly a `session` event, then a single
`chunk` event whose content is the fixed `error_message` apology, then a
terminal `done` event; no `error` event and no other `chunk` event
appears. -/
theorem c2_amended_stream_collab_raise (collab : Collab)
    (msgOpt sidOpt : Option String) (user : Option CurrentUser) (now : Nat)
    (st : AgentState) (hm : pyStrip (msgOpt.getD "") ≠ "")
    (hc : collab (ensureSession sidOpt user now st).1 (pyStrip (msgOpt.getD ""))
        (effectiveUsername (some (resolveUsername user))
          (ensureSession sidOpt user now st).1
          (ensureSession sidOpt user now st).2) = .err []) :
    (chat_stream_api collab none msgOpt sidOpt user now st).1
      = .stream [Event.session (ensureSession sidOpt user now st).1,
                 Event.chunk error_message, Event.done] := by
  rw [chat_stream_api_of_message collab none sidOpt user now st hm,
    generate_stream_of_no_fault, streamEvents_eq]
  rw [hc, filter_keepChunk_collabFrags_err]
  rfl

/-- Witness for C2 (amended) at a concrete input: collaborator raises
immediately, message `"hi"`, fresh state. -/
theorem c2_amended_stream_collab_raise_witness :
    (chat_stream_api (fun _ _ _ => .err []) none (some "hi") none none 9
        ⟨[], 0⟩).1
      = .stream [Event.session (ensureSession none none 9 ⟨[], 0⟩).1,
                 Event.chunk error_message, Event.done] :=
  c2_amended_stream_collab_raise (fun _ _ _ => .err []) (some "hi") none none 9
    ⟨[], 0⟩ (by decide) rfl

/-- Claim C3, counterexample.  The claim promises "one `chunk` event per
non-empty fragment".  The source's `stream_response` filter (line 693) is
`if chunk and chunk.strip()`, which also drops fragments that are
non-empty but whitespace-only.  Concretely: a collaborator that yields
the single non-empty fragment `" "` and completes normally produces the
stream `session`, `done` with no `chunk` event at all. -/
theorem c3_counterexample :
    (chat_stream_api (fun _ _ _ => .ok [" "]) none (some "hi") none none 5
        ⟨[], 0⟩).1
      = .stream [Event.session (uuid4 0), Event.done] :=
  by decide

/-- Claim C3 (amended): for every message that is non-blank after
stripping (others are rejected with 400 before any frame is emitted) and
a collaborator that yields a list of fragments and completes normally,
the streaming chat endpoint emits exactly one `session` event first,
then one `chunk` event per fragment that is non-blank (non-empty and not
whitespace-only), in order, then a terminal `done` event, and nothing
else. -/
theorem c3_amended_stream_events (collab : Collab) (frags : List String)
    (msgOpt sidOpt : Option String) (user : Option CurrentUser) (now : Nat)
    (st : AgentState) (hm : pyStrip (msgOpt.getD "") ≠ "")
    (hc : collab (ensureSession sidOpt user now st).1 (pyStrip (msgOpt.getD ""))
        (effectiveUsername (some (resolveUsername user))
          (ensureSession sidOpt user now st).1
          (ensureSession sidOpt user now st).2) = .ok frags) :
    (chat_stream_api collab none msgOpt sidOpt user now st).1
      = .stream (Event.session (ensureSession sidOpt user now st).1
          :: ((frags.filter keepChunk).map Event.chunk ++ [Event.done])) := by
  rw [chat_stream_api_of_message collab none sidOpt user now st hm,
    generate_stream_of_no_fault, streamEvents_eq]
  rw [hc, filter_keepChunk_collabFrags_ok]

/-- Witness for C3 (amended) at a concrete input: fragments
`["Hel", " ", "lo"]`, of which the whitespace-only one is dropped. -/
theorem c3_amended_stream_events_witness :
    (chat_stream_api (fun _ _ _ => .ok ["Hel", " ", "lo"]) none (some "hi")
        none none 5 ⟨[], 0⟩).1
      = .stream (Event.session (ensureSession none none 5 ⟨[], 0⟩).1
          :: ((["Hel", " ", "lo"].filter keepChunk).map Event.chunk
              ++ [Event.done])) :=
  c3_amended_stream_events (fun _ _ _ => .ok ["Hel", " ", "lo"])
    ["Hel", " ", "lo"] (some "hi") none none 5 ⟨[], 0⟩ (by decide) rfl

/-- Claim C4 (confirmed): for every message and every fragment sequence
the collaborator yields before completing normally, the one-shot path
returns the in-order concatenation of all yielded fragments (the
`if chunk:` truthiness filter of line 72 only discards empty strings,
which do not affect the concatenation) together with the session id that
was used for the call — the same id handed to the collaborator — and the
state as left by the create-if-unknown step. -/
theorem c4_oneshot_concatenation (collab : Collab) (frags : List String)
    (msg : String) (sid : Option String) (username : Option String)
    (user : Option CurrentUser) (now : Nat) (st : AgentState)
    (hc : collab (ensureSession sid user now st).1 msg
        (effectiveUsername username (ensureSession sid user now st).1
          (ensureSession sid user now st).2) = .ok frags) :
    sync_get_response collab none msg sid username user now st
      = (String.join frags, (ensureSession sid user now st).1,
         (ensureSession sid user now st).2) := by
  rw [sync_get_response_eq, hc, join_collabFrags_ok]

/-- Witness for C4 at a concrete input: fragments `["foo", "", "bar"]`
concatenate to `"foobar"`. -/
theorem c4_oneshot_concatenation_witness :
    sync_get_response (fun _ _ _ => .ok ["foo", "", "bar"]) none "m" none none
        none 2 ⟨[], 0⟩
      = (String.join ["foo", "", "bar"], (ensureSession none none 2 ⟨[], 0⟩).1,
         (ensureSession none none 2 ⟨[], 0⟩).2) :=
  c4_oneshot_concatenation (fun _ _ _ => .ok ["foo", "", "bar"])
    ["foo", "", "bar"] "m" none none none 2 ⟨[], 0⟩ rfl

/-- Claim C5 (confirmed): on an id not present in the registry,
`clear_session` returns the 404 not-found response and leaves the
registry untouched; on a present id it removes exactly that binding,
returns success, and an immediately repeated `clear_session` on the same
id then returns 404 and changes nothing.  The hypothesis that registry
keys are non-empty holds for every reachable state (`create_session`
only installs non-empty uuid tokens; see the `keysNonempty_*` lemmas):
the source's `if session_id and …` guard would skip deletion of an empty
key, but no reachable registry contains one. -/
theorem c5_clear_session_round (st : AgentState) (s : String)
    (hwf : ∀ p ∈ st.sessions, p.1 ≠ "") :
    (dictGet s st.sessions = none →
        clear_session (some s) st = (⟨404, [("error", "Session not found")]⟩, st)) ∧
    ((dictGet s st.sessions).isSome = true →
        clear_session (some s) st
            = (⟨200, [("message", "Session cleared successfully")]⟩,
               { st with sessions := st.sessions.filter (fun p => p.1 ≠ s) }) ∧
        clear_session (some s) (clear_session (some s) st).2
            = (⟨404, [("error", "Session not found")]⟩,
               (clear_session (some s) st).2)) := by
  constructor
  · intro hmiss
    exact clear_session_of_missing hmiss
  · intro hmem
    have hs : s ≠ "" := ne_empty_of_dictGet_isSome hwf hmem
    have h1 := clear_session_of_found hs hmem
    refine ⟨h1, ?_⟩
    rw [h1]
    exact clear_session_of_missing (dictGet_filter_self s st.sessions)

/-- Witness for C5 at a concrete registry holding the single key `"k"`:
the first clear succeeds and empties the registry, the second returns
404. -/
theorem c5_clear_session_round_witness :
    clear_session (some "k") ⟨[("k", ⟨0, "u"⟩)], 3⟩
        = (⟨200, [("message", "Session cleared successfully")]⟩,
           ⟨[], 3⟩) ∧
    clear_session (some "k")
        (clear_session (some "k") ⟨[("k", ⟨0, "u"⟩)], 3⟩).2
        = (⟨404, [("error", "Session not found")]⟩,
           (clear_session (some "k") ⟨[("k", ⟨0, "u"⟩)], 3⟩).2) :=
  (c5_clear_session_round ⟨[("k", ⟨0, "u"⟩)], 3⟩ "k" (by decide)).2 (by decide)

/-- Claim C6 (confirmed): a request whose message is absent, empty or
whitespace-only is rejected by both chat endpoints with status 400 and
the structured body `{"error": "Message is required"}`, the registry is
unchanged, and — since the result below is one constant independent of
the `collab` parameter and of the fault parameters — the external
collaborator is never consulted for such a request. -/
theorem c6_blank_message_rejected (collab : Collab) (sfault : Option SyncFault)
    (fault : Option Nat) (msgOpt sidOpt : Option String)
    (user : Option CurrentUser) (now : Nat) (st : AgentState)
    (hm : pyStrip (msgOpt.getD "") = "") :
    chat_api collab sfault msgOpt sidOpt user now st
        = (⟨400, [("error", "Message is required")]⟩, st) ∧
    chat_stream_api collab fault msgOpt sidOpt user now st
        = (.httpError ⟨400, [("error", "Message is required")]⟩, st) :=
  ⟨chat_api_of_blank collab sfault sidOpt user now st hm,
   chat_stream_api_of_blank collab fault sidOpt user now st hm⟩

/-- Witness for C6 at a concrete input: a whitespace-only message. -/
theorem c6_blank_message_rejected_witness :
    chat_api (fun _ _ _ => .ok ["x"]) none (some "   ") none none 4
        ⟨[], 0⟩
        = (⟨400, [("error", "Message is required")]⟩, ⟨[], 0⟩) ∧
    chat_stream_api (fun _ _ _ => .ok ["x"]) none (some "   ") none none 4
        ⟨[], 0⟩
        = (.httpError ⟨400, [("error", "Message is required")]⟩, ⟨[], 0⟩) :=
  c6_blank_message_rejected (fun _ _ _ => .ok ["x"]) none none (some "   ")
    none none 4 ⟨[], 0⟩ (by decide)

/-- Claim C7 (confirmed): for every chat request — one-shot or streaming
— whose supplied session id is absent, empty or unknown to the registry
(`needsNewSession`), a fresh id `uuid4 st.counter` is drawn from the
modelled uuid supply, recorded in the registry with the creation time
and the resolved username, and used for the request: the one-shot
response carries it in its `session_id` field and the stream opens with
its `session` event, both with a success result rather than an error.
The id is a syntactically valid version-4 token and differs from every
id the supply issued earlier in the process (those are `uuid4 i` for
`i < st.counter`), as long as the nonce has not exhausted the 12-digit
field of the modelled supply. -/
theorem c7_fresh_session (collab : Collab) (msgOpt sidOpt : Option String)
    (user : Option CurrentUser) (now : Nat) (st : AgentState)
    (hm : pyStrip (msgOpt.getD "") ≠ "")
    (hn : needsNewSession st.sessions sidOpt = true)
    (hctr : st.counter < 16 ^ 12) :
    validUuid (uuid4 st.counter) = true ∧
    ((List.range st.counter).all
        (fun i => uuid4 i != uuid4 st.counter)) = true ∧
    (chat_api collab none msgOpt sidOpt user now st).1.status = 200 ∧
    (chat_api collab none msgOpt sidOpt user now st).1.body.lookup "session_id"
        = some (uuid4 st.counter) ∧
    dictGet (uuid4 st.counter)
        (chat_api collab none msgOpt sidOpt user now st).2.sessions
        = some ⟨now, resolveUsername user⟩ ∧
    streamHead (chat_stream_api collab none msgOpt sidOpt user now st).1
        = some (Event.session (uuid4 st.counter)) ∧
    dictGet (uuid4 st.counter)
        (chat_stream_api collab none msgOpt sidOpt user now st).2.sessions
        = some ⟨now, resolveUsername user⟩ := by
  have hens : ensureSession sidOpt user now st = create_session user now st :=
    ensureSession_of_new user now hn
  have hfst : (ensureSession sidOpt user now st).1 = uuid4 st.counter := by
    rw [hens]; rfl
  have hrec : dictGet (uuid4 st.counter)
      (ensureSession sidOpt user now st).2.sessions
      = some ⟨now, resolveUsername user⟩ := by
    rw [hens]
    exact dictGet_create_session_self user now st
  refine ⟨validUuid_uuid4 hctr, ?_, ?_, ?_, ?_, ?_, ?_⟩
  · rw [List.all_eq_true]
    intro i hi
    rw [List.mem_range] at hi
    have hne : uuid4 i ≠ uuid4 st.counter := fun hEq =>
      Nat.ne_of_lt hi (uuid4_injOn (Nat.lt_trans hi hctr) hctr hEq)
    simpa using hne
  · rw [chat_api_of_message collab none sidOpt user now st hm]
  · rw [chat_api_of_message collab none sidOpt user now st hm]
    show List.lookup "session_id" [("response", _), ("session_id", _),
      ("timestamp", _)] = _
    rw [sync_get_response_eq]
    simp [List.lookup, hfst]
  · rw [chat_api_of_message collab none sidOpt user now st hm]
    show dictGet (uuid4 st.counter)
      (sync_get_response collab none (pyStrip (msgOpt.getD "")) sidOpt
        (some (resolveUsername user)) user now st).2.2.sessions = _
    rw [sync_get_response_eq]
    exact hrec
  · rw [chat_stream_api_of_message collab none sidOpt user now st hm,
      generate_stream_of_no_fault, streamEvents_eq]
    simp [streamHead, hfst]
  · rw [chat_stream_api_of_message collab none sidOpt user now st hm,
      generate_stream_of_no_fault, streamEvents_eq]
    exact hrec

/-- Witness for C7 at a concrete input: empty registry, no supplied
session id, message `"hi"`. -/
theorem c7_fresh_session_witness :
    validUuid (uuid4 0) = true ∧
    ((List.range 0).all (fun i => uuid4 i != uuid4 0)) = true ∧
    (chat_api (fun _ _ _ => .ok ["x"]) none (some "hi") none none 3
        ⟨[], 0⟩).1.status = 200 ∧
    (chat_api (fun _ _ _ => .ok ["x"]) none (some "hi") none none 3
        ⟨[], 0⟩).1.body.lookup "session_id" = some (uuid4 0) ∧
    dictGet (uuid4 0)
        (chat_api (fun _ _ _ => .ok ["x"]) none (some "hi") none none 3
          ⟨[], 0⟩).2.sessions = some ⟨3, resolveUsername none⟩ ∧
    streamHead (chat_stream_api (fun _ _ _ => .ok ["x"]) none (some "hi") none
        none 3 ⟨[], 0⟩).1 = some (Event.session (uuid4 0)) ∧
    dictGet (uuid4 0)
        (chat_stream_api (fun _ _ _ => .ok ["x"]) none (some "hi") none none 3
          ⟨[], 0⟩).2.sessions = some ⟨3, resolveUsername none⟩ :=
  c7_fresh_session (fun _ _ _ => .ok ["x"]) (some "hi") none none 3 ⟨[], 0⟩
    (by decide) (by decide) (by decide)

/-- Claim C8 (confirmed): in every stream the streaming chat endpoint
produces — for every collaborator behaviour and every injected internal
fault — an `error` event can only be the very last event of the stream:
every event before the final one is a non-`error` event, so no `done`
event and no event of any kind follows an `error` event; and the stream,
being a finite list, terminates.  This matches the source: the `except`
branch of `generate_stream` (lines 709-715) yields the single `error`
frame and then the generator ends. -/
theorem c8_error_event_final (collab : Collab) (fault : Option Nat)
    (msgOpt sidOpt : Option String) (user : Option CurrentUser) (now : Nat)
    (st : AgentState) (evs : List Event) (st' : AgentState)
    (h : chat_stream_api collab fault msgOpt sidOpt user now st
      = (.stream evs, st')) :
    (evs.dropLast.all fun e => !(isErrorEvent e)) = true := by
  by_cases hm : pyStrip (msgOpt.getD "") = ""
  · rw [chat_stream_api_of_blank collab fault sidOpt user now st hm] at h
    exact absurd (congrArg Prod.fst h) (by simp)
  · rw [chat_stream_api_of_message collab fault sidOpt user now st hm] at h
    have hfst := congrArg Prod.fst h
    simp only [ChatStreamResult.stream.injEq] at hfst
    rw [List.all_eq_true]
    intro e he
    simp only [Bool.not_eq_true']
    rw [← hfst] at he
    cases fault with
    | none =>
      rw [generate_stream_of_no_fault] at he
      exact not_isErrorEvent_streamEvents collab _ sidOpt user now st e
        (List.dropLast_subset _ he)
    | some k =>
      rw [generate_stream_of_fault] at he
      rw [List.dropLast_concat] at he
      exact not_isErrorEvent_streamEvents collab _ sidOpt user now st e
        (List.take_subset _ _ he)

/-- Witness for C8 at a concrete input: a fault after one yielded frame
produces the stream `session`, `error`; every event before the last one
is not an `error` event. -/
theorem c8_error_event_final_witness :
    (([Event.session (uuid4 0),
       Event.error stream_error_content] : List Event).dropLast.all
      fun e => !(isErrorEvent e)) = true :=
  c8_error_event_final (fun _ _ _ => .err []) (some 1) (some "hi") none none 5
    ⟨[], 0⟩ [Event.session (uuid4 0), Event.error stream_error_content]
    ⟨[(uuid4 0, ⟨5, "anonymous"⟩)], 1⟩ (by decide)

/-- Claim C9 (confirmed): a call to `sync_get_response` with a session id
already present in the registry returns that same session id and leaves
the whole state — the registry and the uuid supply — entirely unchanged,
for every collaborator behaviour (success or raise) and even under the
fault-injected runs of its own exception handler.  The non-empty-keys
hypothesis holds in every reachable state (see the `keysNonempty_*`
lemmas). -/
theorem c9_sync_known_session_frame (collab : Collab)
    (fault : Option SyncFault) (msg : String) (s : String)
    (username : Option String) (user : Option CurrentUser) (now : Nat)
    (st : AgentState) (hwf : ∀ p ∈ st.sessions, p.1 ≠ "")
    (hmem : (dictGet s st.sessions).isSome = true) :
    (sync_get_response collab fault msg (some s) username user now st).2.1 = s ∧
    (sync_get_response collab fault msg (some s) username user now st).2.2 = st := by
  have hs : s ≠ "" := ne_empty_of_dictGet_isSome hwf hmem
  have he : ensureSession (some s) user now st = (s, st) :=
    ensureSession_of_known user now hs hmem
  cases fault with
  | none =>
    rw [sync_get_response_eq, he]
    exact ⟨rfl, rfl⟩
  | some f =>
    cases f with
    | beforeEnsure =>
      rw [sync_get_response_beforeEnsure_of_ne collab msg username user now st hs]
      exact ⟨rfl, rfl⟩
    | afterEnsure =>
      rw [sync_get_response_afterEnsure, he]
      exact ⟨rfl, rfl⟩

/-- Witness for C9 at a concrete input: registry holding `"k"`, a
collaborator that raises, no fault. -/
theorem c9_sync_known_session_frame_witness :
    (sync_get_response (fun _ _ _ => .err ["x"]) none "m" (some "k") none none
        8 ⟨[("k", ⟨1, "u"⟩)], 4⟩).2.1 = "k" ∧
    (sync_get_response (fun _ _ _ => .err ["x"]) none "m" (some "k") none none
        8 ⟨[("k", ⟨1, "u"⟩)], 4⟩).2.2 = ⟨[("k", ⟨1, "u"⟩)], 4⟩ :=
  c9_sync_known_session_frame (fun _ _ _ => .err ["x"]) none "m" "k" none none
    8 ⟨[("k", ⟨1, "u"⟩)], 4⟩ (by decide) (by decide)

/-- Claim C10 (confirmed): a clear-session request whose body lacks a
`session_id` (modelled as `none`) or supplies an empty one receives
literally the same 404 not-found response, with the registry unchanged,
as a request naming an id that is not in the registry; a missing id is
never a validation error or an internal error. -/
theorem c10_clear_session_missing_id (st : AgentState) (u : String) :
    clear_session none st = (⟨404, [("error", "Session not found")]⟩, st) ∧
    clear_session (some "") st = (⟨404, [("error", "Session not found")]⟩, st) ∧
    (dictGet u st.sessions = none →
      clear_session (some u) st = clear_session none st) := by
  refine ⟨clear_session_of_none st, clear_session_of_empty st, ?_⟩
  intro hu
  rw [clear_session_of_missing hu, clear_session_of_none]

/-- Witness for C10 at a concrete input: one-entry registry, unknown id
`"z"`. -/
theorem c10_clear_session_missing_id_witness :
    clear_session none ⟨[("k", ⟨1, "u"⟩)], 4⟩
        = (⟨404, [("error", "Session not found")]⟩, ⟨[("k", ⟨1, "u"⟩)], 4⟩) ∧
    clear_session (some "") ⟨[("k", ⟨1, "u"⟩)], 4⟩
        = (⟨404, [("error", "Session not found")]⟩, ⟨[("k", ⟨1, "u"⟩)], 4⟩) ∧
    clear_session (some "z") ⟨[("k", ⟨1, "u"⟩)], 4⟩
        = clear_session none ⟨[("k", ⟨1, "u"⟩)], 4⟩ := by
  have h := c10_clear_session_missing_id ⟨[("k", ⟨1, "u"⟩)], 4⟩ "z"
  exact ⟨h.1, h.2.1, h.2.2 (by decide)⟩
